import Mathlib

/-!
Shallow embedding of the Pokémon favorites REST API (`src/app.py`).

The persistent store (four relational tables) is modelled as a `Store`
record of lists of rows; each Flask handler becomes a function
`Store → … → HResp × Store` returning the HTTP response together with the
store after the request (unchanged whenever the handler raises an
`APIException` or performs no write).  SQLAlchemy queries are translated
query-by-query: `Model.query.get(i)` is `List.find?` on the primary key,
`filter_by(...)` is `List.filter`/`List.find?` with the conjunction of the
keyword equalities (SQL `NULL` never equals an integer, so a nullable
column is compared as `Option Nat`), `order_by(id.asc())` is a stable sort
by ascending id, and `.first()` is `List.find?` / `List.head?` in table
order.  Strings coming from the request are modelled over their character
lists; Python's `s.isdigit()` on an ASCII string is "non-empty and all
decimal digits" and `int(s)` is the decimal fold.
-/

deriving instance DecidableEq for Except

namespace PokeApi

/-- A row of the `users` table.  Modelled from the spec: `models.py` is not
part of the sources; the spec says only the integer identifier of a user is
relevant to this core. -/
structure User where
  id : Nat
deriving DecidableEq

/-- A row of the `pokemons` table.  Modelled from the spec: descriptive
attributes are opaque and passed through serialization unchanged, so a
single opaque `name` field stands for all of them and `serialize()` is the
row itself. -/
structure Pokemon where
  id : Nat
  name : String
deriving DecidableEq

/-- A row of the `regions` table.  Modelled from the spec, as for `Pokemon`. -/
structure Region where
  id : Nat
  name : String
deriving DecidableEq

/-- A row of the `favorites` table: non-null `user_id`, nullable
`pokemon_id` and `region_id` (spec §6: "favorites holding nullable foreign
keys to pokemon and region and a non-null foreign key to user"). -/
structure Favorite where
  id : Nat
  user_id : Nat
  pokemon_id : Option Nat
  region_id : Option Nat
deriving DecidableEq

/-- The relational store: the four tables, each in row (insertion) order. -/
structure Store where
  users : List User
  pokemons : List Pokemon
  regions : List Region
  favorites : List Favorite
deriving DecidableEq

/-- The request context the handlers consult: the `user_id` query-string
parameter and the `X-User-Id` header, each possibly absent. -/
structure Ctx where
  user_id_q : Option String
  x_user_id : Option String
deriving DecidableEq

/-- An `APIException(msg, status)` as raised by the handlers. -/
structure ApiErr where
  msg : String
  status : Nat
deriving DecidableEq

/-- One element of the `GET /users/favorites` response array: the
serialized favorite, plus the optional enrichment keys.  The outer
`Option` records whether the `"pokemon"` / `"region"` key is present in
the JSON object at all; the inner `Option` is the JSON value (`some p` a
full object, `none` an explicit JSON `null`). -/
structure FavItem where
  favorite : Favorite
  pokemon : Option (Option Pokemon)
  region : Option (Option Region)
deriving DecidableEq

/-- JSON response bodies produced by the handlers under study. -/
inductive HBody where
  | err (msg : String)
  | pokemonList (items : List Pokemon)
  | pokemonOne (p : Pokemon)
  | regionList (items : List Region)
  | regionOne (r : Region)
  | userList (items : List User)
  | favList (items : List FavItem)
  | favCreated (fav : Favorite)
  | favAlready (msg : String) (fav : Favorite)
  | message (msg : String)
deriving DecidableEq

/-- An HTTP response: status code and JSON body. -/
structure HResp where
  status : Nat
  body : HBody
deriving DecidableEq

/-- The JSON error response the global `APIException` handler produces. -/
def errResp (e : ApiErr) : HResp := ⟨e.status, HBody.err e.msg⟩

/-- Python `truthy-string ∧ s.isdigit()` for an ASCII string: non-empty and
every character a decimal digit. -/
def pyIsDigit (s : String) : Bool :=
  !s.data.isEmpty && s.data.all Char.isDigit

/-- Python `int(s)` on a decimal-digit string: the decimal fold. -/
def pyInt (s : String) : Nat :=
  s.data.foldl (fun n c => n * 10 + (c.toNat - 48)) 0

/-- The ascending-by-id stable sort implementing `order_by(Model.id.asc())`. -/
def sortById (idOf : α → Nat) (l : List α) : List α :=
  List.insertionSort (fun a b => idOf a ≤ idOf b) l

/-- `User.query.order_by(User.id.asc()).first()`. -/
def firstUserByIdAsc (s : Store) : Option User :=
  (sortById User.id s.users).head?

/-- The 400 error message raised when identity resolution finds no user. -/
def noUsersMsg : String := "No hay usuarios en la base de datos. Crea uno en el Admin."

/-- Identity resolution, step 3: fall back to the first user in the table
ordered by ascending id, or raise 400. -/
def resolveFallback (s : Store) : Except ApiErr Nat :=
  match firstUserByIdAsc s with
  | some u => Except.ok u.id
  | none => Except.error ⟨noUsersMsg, 400⟩

/-- Identity resolution, step 2: the `X-User-Id` header if present and
numeric, else the fallback. -/
def resolveHeader (s : Store) (c : Ctx) : Except ApiErr Nat :=
  match c.x_user_id with
  | some h => if pyIsDigit h then Except.ok (pyInt h) else resolveFallback s
  | none => resolveFallback s

/-- `get_current_user_id()`: query parameter, then header, then fallback. -/
def get_current_user_id (s : Store) (c : Ctx) : Except ApiErr Nat :=
  match c.user_id_q with
  | some q => if pyIsDigit q then Except.ok (pyInt q) else resolveHeader s c
  | none => resolveHeader s c

/-- `User.query.get(user_id)`. -/
def findUser (s : Store) (uid : Nat) : Option User :=
  s.users.find? (fun u => u.id == uid)

/-- `ensure_user_exists(user_id)`: the user row, or a 404. -/
def ensure_user_exists (s : Store) (uid : Nat) : Except ApiErr User :=
  match findUser s uid with
  | none => Except.error ⟨"User " ++ toString uid ++ " no existe.", 404⟩
  | some u => Except.ok u

/-- `Pokemon.query.get(pokemon_id)`. -/
def findPokemon (s : Store) (pid : Nat) : Option Pokemon :=
  s.pokemons.find? (fun p => p.id == pid)

/-- `Region.query.get(region_id)`. -/
def findRegion (s : Store) (rid : Nat) : Option Region :=
  s.regions.find? (fun r => r.id == rid)

/-- `GET /pokemons`. -/
def list_pokemons (s : Store) : HResp × Store :=
  (⟨200, HBody.pokemonList (sortById Pokemon.id s.pokemons)⟩, s)

/-- `GET /pokemons/<int:pokemon_id>`. -/
def get_pokemon (s : Store) (pid : Nat) : HResp × Store :=
  match findPokemon s pid with
  | none => (⟨404, HBody.err "Pokémon no encontrado."⟩, s)
  | some p => (⟨200, HBody.pokemonOne p⟩, s)

/-- `GET /regions`. -/
def list_regions (s : Store) : HResp × Store :=
  (⟨200, HBody.regionList (sortById Region.id s.regions)⟩, s)

/-- `GET /regions/<int:region_id>`. -/
def get_region (s : Store) (rid : Nat) : HResp × Store :=
  match findRegion s rid with
  | none => (⟨404, HBody.err "Región no encontrada."⟩, s)
  | some r => (⟨200, HBody.regionOne r⟩, s)

/-- `GET /users`. -/
def list_users (s : Store) : HResp × Store :=
  (⟨200, HBody.userList (sortById User.id s.users)⟩, s)

/-- The enrichment of one favorite's `"pokemon"` key: Python
`if f.pokemon_id:` (falsy on `NULL` and on `0`) guards the lookup, and
`p.serialize() if p else None` yields the object or an explicit null. -/
def enrichPokemon (s : Store) (f : Favorite) : Option (Option Pokemon) :=
  match f.pokemon_id with
  | some k => if k != 0 then some (findPokemon s k) else none
  | none => none

/-- The enrichment of one favorite's `"region"` key, symmetric to
`enrichPokemon`. -/
def enrichRegion (s : Store) (f : Favorite) : Option (Option Region) :=
  match f.region_id with
  | some k => if k != 0 then some (findRegion s k) else none
  | none => none

/-- One item of the favorites listing: `f.serialize()` enriched. -/
def enrichFav (s : Store) (f : Favorite) : FavItem :=
  ⟨f, enrichPokemon s f, enrichRegion s f⟩

/-- `Favorite.query.filter_by(user_id=user_id).order_by(Favorite.id.asc()).all()`. -/
def userFavorites (s : Store) (uid : Nat) : List Favorite :=
  sortById Favorite.id (s.favorites.filter (fun f => f.user_id == uid))

/-- `GET /users/favorites`. -/
def list_my_favorites (s : Store) (c : Ctx) : HResp × Store :=
  match get_current_user_id s c with
  | Except.error e => (errResp e, s)
  | Except.ok uid =>
    match ensure_user_exists s uid with
    | Except.error e => (errResp e, s)
    | Except.ok _ =>
      (⟨200, HBody.favList ((userFavorites s uid).map (enrichFav s))⟩, s)

/-- `Favorite.query.filter_by(user_id=user_id, pokemon_id=pokemon_id).first()`:
the first favorite row of this user whose (nullable) `pokemon_id` equals
the given integer. -/
def findFavByPokemon (s : Store) (uid pid : Nat) : Option Favorite :=
  s.favorites.find? (fun f => f.user_id == uid && f.pokemon_id == some pid)

/-- `Favorite.query.filter_by(user_id=user_id, region_id=region_id).first()`. -/
def findFavByRegion (s : Store) (uid rid : Nat) : Option Favorite :=
  s.favorites.find? (fun f => f.user_id == uid && f.region_id == some rid)

/-- Modelled from the spec: `models.py` is not part of the sources, so the
store's auto-assignment of the new favorite's identifier ("identifier …
auto-assigned") is modelled as one more than the largest id in the table. -/
def nextFavoriteId (s : Store) : Nat :=
  (s.favorites.map Favorite.id).foldl max 0 + 1

/-- `POST /favorite/pokemon/<int:pokemon_id>`. -/
def add_fav_pokemon (s : Store) (c : Ctx) (pid : Nat) : HResp × Store :=
  match get_current_user_id s c with
  | Except.error e => (errResp e, s)
  | Except.ok uid =>
    match ensure_user_exists s uid with
    | Except.error e => (errResp e, s)
    | Except.ok _ =>
      match findPokemon s pid with
      | none => (⟨404, HBody.err "Pokémon no encontrado."⟩, s)
      | some _ =>
        match findFavByPokemon s uid pid with
        | some ex => (⟨200, HBody.favAlready "Ya estaba en favoritos" ex⟩, s)
        | none =>
          (⟨201, HBody.favCreated ⟨nextFavoriteId s, uid, some pid, none⟩⟩,
           { s with favorites := s.favorites ++ [⟨nextFavoriteId s, uid, some pid, none⟩] })

/-- `POST /favorite/region/<int:region_id>`. -/
def add_fav_region (s : Store) (c : Ctx) (rid : Nat) : HResp × Store :=
  match get_current_user_id s c with
  | Except.error e => (errResp e, s)
  | Except.ok uid =>
    match ensure_user_exists s uid with
    | Except.error e => (errResp e, s)
    | Except.ok _ =>
      match findRegion s rid with
      | none => (⟨404, HBody.err "Región no encontrada."⟩, s)
      | some _ =>
        match findFavByRegion s uid rid with
        | some ex => (⟨200, HBody.favAlready "Ya estaba en favoritos" ex⟩, s)
        | none =>
          (⟨201, HBody.favCreated ⟨nextFavoriteId s, uid, none, some rid⟩⟩,
           { s with favorites := s.favorites ++ [⟨nextFavoriteId s, uid, none, some rid⟩] })

/-- `DELETE /favorite/pokemon/<int:pokemon_id>`: `db.session.delete(fav)`
removes the row `first()` found, i.e. the first matching row in table
order. -/
def delete_fav_pokemon (s : Store) (c : Ctx) (pid : Nat) : HResp × Store :=
  match get_current_user_id s c with
  | Except.error e => (errResp e, s)
  | Except.ok uid =>
    match ensure_user_exists s uid with
    | Except.error e => (errResp e, s)
    | Except.ok _ =>
      match findFavByPokemon s uid pid with
      | none => (⟨404, HBody.err "Ese Pokémon no está en tus favoritos."⟩, s)
      | some _ =>
        (⟨200, HBody.message "Favorito (Pokémon) eliminado"⟩,
         { s with favorites :=
            s.favorites.eraseP (fun f => f.user_id == uid && f.pokemon_id == some pid) })

/-- `DELETE /favorite/region/<int:region_id>`. -/
def delete_fav_region (s : Store) (c : Ctx) (rid : Nat) : HResp × Store :=
  match get_current_user_id s c with
  | Except.error e => (errResp e, s)
  | Except.ok uid =>
    match ensure_user_exists s uid with
    | Except.error e => (errResp e, s)
    | Except.ok _ =>
      match findFavByRegion s uid rid with
      | none => (⟨404, HBody.err "Esa Región no está en tus favoritos."⟩, s)
      | some _ =>
        (⟨200, HBody.message "Favorito (Región) eliminado"⟩,
         { s with favorites :=
            s.favorites.eraseP (fun f => f.user_id == uid && f.region_id == some rid) })

/-- One mutating request against the favorites subsystem. -/
inductive Op where
  | addPokemon (c : Ctx) (pid : Nat)
  | addRegion (c : Ctx) (rid : Nat)
  | delPokemon (c : Ctx) (pid : Nat)
  | delRegion (c : Ctx) (rid : Nat)
deriving DecidableEq

/-- The store after one mutating request (the response is discarded). -/
def applyOp (s : Store) (op : Op) : Store :=
  match op with
  | Op.addPokemon c pid => (add_fav_pokemon s c pid).2
  | Op.addRegion c rid => (add_fav_region s c rid).2
  | Op.delPokemon c pid => (delete_fav_pokemon s c pid).2
  | Op.delRegion c rid => (delete_fav_region s c rid).2

/-- The store after a finite sequence of mutating requests. -/
def runOps (s : Store) (ops : List Op) : Store :=
  ops.foldl applyOp s

/-- A favorite row has exactly one non-null target reference. -/
def targetXor (f : Favorite) : Prop :=
  (f.pokemon_id ≠ none ∧ f.region_id = none) ∨ (f.pokemon_id = none ∧ f.region_id ≠ none)

instance (f : Favorite) : Decidable (targetXor f) := by
  unfold targetXor; infer_instance

/-- Every favorite row of the store has exactly one non-null target. -/
def TargetOK (s : Store) : Prop :=
  ∀ f ∈ s.favorites, targetXor f

instance (s : Store) : Decidable (TargetOK s) := by
  unfold TargetOK; infer_instance

/-- The favorite row linking user `uid` to Pokémon `pid`. -/
def favMatchesPokemon (uid pid : Nat) (f : Favorite) : Prop :=
  f.user_id = uid ∧ f.pokemon_id = some pid

instance (uid pid : Nat) (f : Favorite) : Decidable (favMatchesPokemon uid pid f) := by
  unfold favMatchesPokemon; infer_instance

/-- The favorite row linking user `uid` to Region `rid`. -/
def favMatchesRegion (uid rid : Nat) (f : Favorite) : Prop :=
  f.user_id = uid ∧ f.region_id = some rid

instance (uid rid : Nat) (f : Favorite) : Decidable (favMatchesRegion uid rid f) := by
  unfold favMatchesRegion; infer_instance

/-- An optional request string that the resolver accepts as an explicit id:
present and numeric. -/
def usableId : Option String → Bool
  | some q => pyIsDigit q
  | none => false

/-! ### Helper lemmas -/

lemma sortById_perm {α : Type*} (idOf : α → Nat) (l : List α) :
    List.Perm (sortById idOf l) l :=
  List.perm_insertionSort _ l

lemma sortById_sorted {α : Type*} (idOf : α → Nat) (l : List α) :
    List.Sorted (fun a b => idOf a ≤ idOf b) (sortById idOf l) := by
  haveI : IsTotal α (fun a b => idOf a ≤ idOf b) := ⟨fun a b => Nat.le_total _ _⟩
  haveI : IsTrans α (fun a b => idOf a ≤ idOf b) := ⟨fun a b c hab hbc => Nat.le_trans hab hbc⟩
  exact List.sorted_insertionSort _ l

lemma resolveFallback_min (s : Store) (hne : s.users ≠ []) :
    ∃ u, u ∈ s.users ∧ resolveFallback s = Except.ok u.id ∧ ∀ v ∈ s.users, u.id ≤ v.id := by
  have hperm := sortById_perm User.id s.users
  have hsort := sortById_sorted User.id s.users
  cases hcase : sortById User.id s.users with
  | nil =>
    rw [hcase] at hperm
    exact absurd hperm.symm.eq_nil hne
  | cons u t =>
    rw [hcase] at hperm hsort
    refine ⟨u, hperm.subset (List.mem_cons_self u t), ?_, ?_⟩
    · simp [resolveFallback, firstUserByIdAsc, hcase]
    · intro v hv
      have hv' : v ∈ u :: t := hperm.symm.subset hv
      rcases List.mem_cons.mp hv' with h | h
      · exact h ▸ Nat.le_refl _
      · exact List.rel_of_sorted_cons hsort v h

lemma resolveFallback_empty (s : Store) (h : s.users = []) :
    resolveFallback s = Except.error ⟨noUsersMsg, 400⟩ := by
  simp [resolveFallback, firstUserByIdAsc, sortById, h]

lemma resolveHeader_of_unusable (s : Store) (c : Ctx) (hh : usableId c.x_user_id = false) :
    resolveHeader s c = resolveFallback s := by
  unfold resolveHeader
  cases hch : c.x_user_id with
  | none => rfl
  | some h =>
    have hd : pyIsDigit h = false := by rw [hch] at hh; simpa [usableId] using hh
    simp [hd]

lemma get_current_user_id_of_unusable (s : Store) (c : Ctx)
    (hq : usableId c.user_id_q = false) :
    get_current_user_id s c = resolveHeader s c := by
  unfold get_current_user_id
  cases hcq : c.user_id_q with
  | none => rfl
  | some q =>
    have : pyIsDigit q = false := by rw [hcq] at hq; simpa [usableId] using hq
    simp [this]

lemma get_current_user_id_set_favorites (s : Store) (F : List Favorite) (c : Ctx) :
    get_current_user_id { s with favorites := F } c = get_current_user_id s c := rfl

lemma findUser_set_favorites (s : Store) (F : List Favorite) (uid : Nat) :
    findUser { s with favorites := F } uid = findUser s uid := rfl

lemma findPokemon_set_favorites (s : Store) (F : List Favorite) (pid : Nat) :
    findPokemon { s with favorites := F } pid = findPokemon s pid := rfl

lemma findRegion_set_favorites (s : Store) (F : List Favorite) (rid : Nat) :
    findRegion { s with favorites := F } rid = findRegion s rid := rfl

lemma pyInt_eq_toNat (q : String) (h : pyIsDigit q = true) : q.toNat? = some (pyInt q) := by
  simp only [pyIsDigit, Bool.and_eq_true, Bool.not_eq_true'] at h
  have hemp : q.isEmpty = false := by
    rw [Bool.eq_false_iff]
    intro he
    have hq : q = "" := (String.isEmpty_iff q).mp he
    rw [hq] at h
    simp at h
  have hnat : q.isNat = true := by
    simp only [String.isNat, hemp, Bool.not_false, Bool.true_and, String.all_eq]
    exact h.2
  rw [String.toNat?, if_pos hnat, String.foldl_eq]
  rfl

/-! ### Claims -/

/-- C4: the identity resolver follows the fixed precedence: a present and
numeric `user_id` query parameter wins and its integer value is returned;
else a present and numeric `X-User-Id` header wins; else the id of the
lowest-identifier user in the store is returned; and when none of the three
sources yields an id the resolver fails with the 400 "no users available"
error. -/
theorem claim4_resolver_precedence (s : Store) (c : Ctx) :
    (∀ q, c.user_id_q = some q → pyIsDigit q = true →
       get_current_user_id s c = Except.ok (pyInt q))
  ∧ (usableId c.user_id_q = false →
      ∀ h, c.x_user_id = some h → pyIsDigit h = true →
        get_current_user_id s c = Except.ok (pyInt h))
  ∧ (usableId c.user_id_q = false → usableId c.x_user_id = false → s.users ≠ [] →
      ∃ u, u ∈ s.users ∧ get_current_user_id s c = Except.ok u.id ∧
        ∀ v ∈ s.users, u.id ≤ v.id)
  ∧ (usableId c.user_id_q = false → usableId c.x_user_id = false → s.users = [] →
      get_current_user_id s c = Except.error ⟨noUsersMsg, 400⟩)
  ∧ (∀ v : String, pyIsDigit v = true → v.toNat? = some (pyInt v)) := by
  refine ⟨?_, ?_, ?_, ?_, fun v hv => pyInt_eq_toNat v hv⟩
  · intro q hq hdig
    simp [get_current_user_id, hq, hdig]
  · intro hq h hh hdig
    rw [get_current_user_id_of_unusable s c hq]
    simp [resolveHeader, hh, hdig]
  · intro hq hh hne
    obtain ⟨u, hmem, hfb, hmin⟩ := resolveFallback_min s hne
    refine ⟨u, hmem, ?_, hmin⟩
    rw [get_current_user_id_of_unusable s c hq, resolveHeader_of_unusable s c hh, hfb]
  · intro hq hh hemp
    rw [get_current_user_id_of_unusable s c hq, resolveHeader_of_unusable s c hh,
      resolveFallback_empty s hemp]

/-- Witness for C4: on a store whose users have ids 4 and 2, with a
non-numeric query parameter and a numeric header "7", resolution returns 7;
and with no usable explicit source it returns the lowest user id. -/
theorem claim4_resolver_precedence_witness :
    get_current_user_id ⟨[⟨4⟩, ⟨2⟩], [], [], []⟩ ⟨some "12a", some "7"⟩ = Except.ok 7
  ∧ ∃ u, u ∈ (⟨[⟨4⟩, ⟨2⟩], [], [], []⟩ : Store).users ∧
      get_current_user_id ⟨[⟨4⟩, ⟨2⟩], [], [], []⟩ ⟨some "12a", none⟩ = Except.ok u.id ∧
      ∀ v ∈ (⟨[⟨4⟩, ⟨2⟩], [], [], []⟩ : Store).users, u.id ≤ v.id :=
  ⟨(claim4_resolver_precedence ⟨[⟨4⟩, ⟨2⟩], [], [], []⟩ ⟨some "12a", some "7"⟩).2.1
      (by decide) "7" rfl (by decide),
   (claim4_resolver_precedence ⟨[⟨4⟩, ⟨2⟩], [], [], []⟩ ⟨some "12a", none⟩).2.2.1
      (by decide) (by decide) (by decide)⟩

/-- C9: the resolver treats a request value as numeric only when it is a
non-empty all-decimal-digit string; a query parameter or header value with
a sign or any non-digit character (for example "-3", "+5", "12a", "") is
silently ignored and resolution falls through to the next source, and an
explicit malformed id never causes an error: whenever the users table is
non-empty, resolution succeeds. -/
theorem claim9_nonnumeric_ignored (s : Store) (c : Ctx) (q : String) :
    (pyIsDigit q = true ↔ (q.data ≠ [] ∧ ∀ ch ∈ q.data, ch.isDigit = true))
  ∧ (pyIsDigit q = false →
      get_current_user_id s ⟨some q, c.x_user_id⟩ = get_current_user_id s ⟨none, c.x_user_id⟩)
  ∧ (pyIsDigit q = false →
      get_current_user_id s ⟨c.user_id_q, some q⟩ = get_current_user_id s ⟨c.user_id_q, none⟩)
  ∧ (pyIsDigit "-3" = false ∧ pyIsDigit "+5" = false ∧ pyIsDigit "12a" = false ∧
      pyIsDigit "" = false)
  ∧ (s.users ≠ [] → ∃ n, get_current_user_id s c = Except.ok n) := by
  refine ⟨?_, ?_, ?_, by decide, ?_⟩
  · simp [pyIsDigit, List.isEmpty_iff]
  · intro hq
    simp only [get_current_user_id, hq, Bool.false_eq_true, if_false]
    rfl
  · intro hq
    unfold get_current_user_id
    cases hcq : c.user_id_q with
    | none => simp [resolveHeader, hq]
    | some q' =>
      by_cases hd : pyIsDigit q'
      · simp [hd]
      · simp [hd, resolveHeader, hq]
  · intro hne
    unfold get_current_user_id
    cases hcq : c.user_id_q with
    | none =>
      unfold resolveHeader
      cases hch : c.x_user_id with
      | none =>
        obtain ⟨u, _, hfb, _⟩ := resolveFallback_min s hne
        exact ⟨u.id, hfb⟩
      | some h =>
        by_cases hd : pyIsDigit h
        · exact ⟨pyInt h, by simp [hd]⟩
        · obtain ⟨u, _, hfb, _⟩ := resolveFallback_min s hne
          exact ⟨u.id, by simp [hd, hfb]⟩
    | some q' =>
      by_cases hd : pyIsDigit q'
      · exact ⟨pyInt q', by simp [hd]⟩
      · unfold resolveHeader
        cases hch : c.x_user_id with
        | none =>
          obtain ⟨u, _, hfb, _⟩ := resolveFallback_min s hne
          exact ⟨u.id, by simp [hd, hfb]⟩
        | some h =>
          by_cases hdh : pyIsDigit h
          · exact ⟨pyInt h, by simp [hd, hdh]⟩
          · obtain ⟨u, _, hfb, _⟩ := resolveFallback_min s hne
            exact ⟨u.id, by simp [hd, hdh, hfb]⟩

/-- Witness for C9: with a malformed query parameter "-3" the resolver on a
one-user store falls back exactly as if the parameter were absent, and it
still succeeds. -/
theorem claim9_nonnumeric_ignored_witness :
    (get_current_user_id ⟨[⟨5⟩], [], [], []⟩ ⟨some "-3", none⟩
      = get_current_user_id ⟨[⟨5⟩], [], [], []⟩ ⟨none, none⟩)
  ∧ ∃ n, get_current_user_id ⟨[⟨5⟩], [], [], []⟩ ⟨some "-3", none⟩ = Except.ok n :=
  ⟨(claim9_nonnumeric_ignored ⟨[⟨5⟩], [], [], []⟩ ⟨some "-3", none⟩ "-3").2.1 (by decide),
   (claim9_nonnumeric_ignored ⟨[⟨5⟩], [], [], []⟩ ⟨some "-3", none⟩ "-3").2.2.2.2 (by decide)⟩

/-- A sample store used by the witnesses: users 1 and 2, Pokémon 3 and 5,
Region 7, and user 1 already has Pokémon 5 and Region 7 as favorites. -/
def egStore : Store :=
  ⟨[⟨1⟩, ⟨2⟩], [⟨3, "bulbasaur"⟩, ⟨5, "pikachu"⟩], [⟨7, "kanto"⟩],
   [⟨1, 1, some 5, none⟩, ⟨2, 1, none, some 7⟩]⟩

/-- A sample request context resolving to user 1 via the query parameter. -/
def egCtx : Ctx := ⟨some "1", none⟩

/-- C7: `GET /pokemons/{id}` returns 200 with the Pokémon's serialization
for every id present in the store and a 404 "not found" error for every id
not present, leaving the store unchanged in both cases; `GET /regions/{id}`
behaves identically over Regions. -/
theorem claim7_get_one (s : Store) (pid rid : Nat) :
    ((∃ p ∈ s.pokemons, p.id = pid) →
       (get_pokemon s pid).1.status = 200 ∧
       ∃ p, p ∈ s.pokemons ∧ p.id = pid ∧ (get_pokemon s pid).1.body = HBody.pokemonOne p)
  ∧ ((¬ ∃ p ∈ s.pokemons, p.id = pid) →
       get_pokemon s pid = (⟨404, HBody.err "Pokémon no encontrado."⟩, s))
  ∧ (get_pokemon s pid).2 = s
  ∧ ((∃ r ∈ s.regions, r.id = rid) →
       (get_region s rid).1.status = 200 ∧
       ∃ r, r ∈ s.regions ∧ r.id = rid ∧ (get_region s rid).1.body = HBody.regionOne r)
  ∧ ((¬ ∃ r ∈ s.regions, r.id = rid) →
       get_region s rid = (⟨404, HBody.err "Región no encontrada."⟩, s))
  ∧ (get_region s rid).2 = s := by
  have hpoke : ((∃ p ∈ s.pokemons, p.id = pid) →
       (get_pokemon s pid).1.status = 200 ∧
       ∃ p, p ∈ s.pokemons ∧ p.id = pid ∧ (get_pokemon s pid).1.body = HBody.pokemonOne p)
    ∧ ((¬ ∃ p ∈ s.pokemons, p.id = pid) →
       get_pokemon s pid = (⟨404, HBody.err "Pokémon no encontrado."⟩, s))
    ∧ (get_pokemon s pid).2 = s := by
    cases hf : findPokemon s pid with
    | none =>
      have hnone := List.find?_eq_none.mp hf
      refine ⟨?_, ?_, ?_⟩
      · rintro ⟨p, hp, hid⟩
        exact absurd (by simp [hid]) (hnone p hp)
      · intro _
        simp [get_pokemon, hf]
      · simp [get_pokemon, hf]
    | some p =>
      have hmem := List.mem_of_find?_eq_some hf
      have hid : p.id = pid := by simpa using List.find?_some hf
      refine ⟨?_, ?_, ?_⟩
      · intro _
        exact ⟨by simp [get_pokemon, hf], p, hmem, hid, by simp [get_pokemon, hf]⟩
      · intro hno
        exact absurd ⟨p, hmem, hid⟩ hno
      · simp [get_pokemon, hf]
  have hreg : ((∃ r ∈ s.regions, r.id = rid) →
       (get_region s rid).1.status = 200 ∧
       ∃ r, r ∈ s.regions ∧ r.id = rid ∧ (get_region s rid).1.body = HBody.regionOne r)
    ∧ ((¬ ∃ r ∈ s.regions, r.id = rid) →
       get_region s rid = (⟨404, HBody.err "Región no encontrada."⟩, s))
    ∧ (get_region s rid).2 = s := by
    cases hf : findRegion s rid with
    | none =>
      have hnone := List.find?_eq_none.mp hf
      refine ⟨?_, ?_, ?_⟩
      · rintro ⟨r, hr, hid⟩
        exact absurd (by simp [hid]) (hnone r hr)
      · intro _
        simp [get_region, hf]
      · simp [get_region, hf]
    | some r =>
      have hmem := List.mem_of_find?_eq_some hf
      have hid : r.id = rid := by simpa using List.find?_some hf
      refine ⟨?_, ?_, ?_⟩
      · intro _
        exact ⟨by simp [get_region, hf], r, hmem, hid, by simp [get_region, hf]⟩
      · intro hno
        exact absurd ⟨r, hmem, hid⟩ hno
      · simp [get_region, hf]
  exact ⟨hpoke.1, hpoke.2.1, hpoke.2.2, hreg.1, hreg.2.1, hreg.2.2⟩

/-- Witness for C7: on the sample store, Pokémon 3 is found with a 200 and
Pokémon 4 produces the 404 error with the store unchanged. -/
theorem claim7_get_one_witness :
    ((get_pokemon egStore 3).1.status = 200 ∧
      ∃ p, p ∈ egStore.pokemons ∧ p.id = 3 ∧
        (get_pokemon egStore 3).1.body = HBody.pokemonOne p)
  ∧ get_pokemon egStore 4 = (⟨404, HBody.err "Pokémon no encontrado."⟩, egStore) :=
  ⟨(claim7_get_one egStore 3 7).1 ⟨⟨3, "bulbasaur"⟩, by decide, rfl⟩,
   (claim7_get_one egStore 4 7).2.1 (by decide)⟩

/-- C8: every listing endpoint returns the full table sorted by ascending
identifier: `GET /pokemons` all Pokémon rows, `GET /regions` all Region
rows, `GET /users` all User rows, and `GET /users/favorites` all of the
resolved user's Favorite rows, each a permutation of the respective table
(restricted to that user in the favorites case — no further filtering or
pagination) in ascending-id order. -/
theorem claim8_listings_sorted (s : Store) (c : Ctx) (uid : Nat)
    (hres : get_current_user_id s c = Except.ok uid)
    (huser : findUser s uid ≠ none) :
    (∃ l, list_pokemons s = (⟨200, HBody.pokemonList l⟩, s) ∧
       List.Perm l s.pokemons ∧ List.Sorted (fun a b => a.id ≤ b.id) l)
  ∧ (∃ l, list_regions s = (⟨200, HBody.regionList l⟩, s) ∧
       List.Perm l s.regions ∧ List.Sorted (fun a b => a.id ≤ b.id) l)
  ∧ (∃ l, list_users s = (⟨200, HBody.userList l⟩, s) ∧
       List.Perm l s.users ∧ List.Sorted (fun a b => a.id ≤ b.id) l)
  ∧ (∃ l, list_my_favorites s c = (⟨200, HBody.favList (l.map (enrichFav s))⟩, s) ∧
       List.Perm l (s.favorites.filter (fun f => f.user_id == uid)) ∧
       List.Sorted (fun a b => a.id ≤ b.id) l) := by
  refine ⟨⟨sortById Pokemon.id s.pokemons, rfl, sortById_perm _ _, sortById_sorted _ _⟩,
    ⟨sortById Region.id s.regions, rfl, sortById_perm _ _, sortById_sorted _ _⟩,
    ⟨sortById User.id s.users, rfl, sortById_perm _ _, sortById_sorted _ _⟩, ?_⟩
  cases hfu : findUser s uid with
  | none => exact absurd hfu huser
  | some u =>
    refine ⟨sortById Favorite.id (s.favorites.filter (fun f => f.user_id == uid)),
      ?_, sortById_perm _ _, sortById_sorted _ _⟩
    simp [list_my_favorites, hres, ensure_user_exists, hfu, userFavorites]

/-- Witness for C8: applied to the sample store with the sample context. -/
theorem claim8_listings_sorted_witness :
    ∃ l, list_my_favorites egStore egCtx = (⟨200, HBody.favList (l.map (enrichFav egStore))⟩, egStore) ∧
      List.Perm l (egStore.favorites.filter (fun f => f.user_id == 1)) ∧
      List.Sorted (fun a b => a.id ≤ b.id) l :=
  (claim8_listings_sorted egStore egCtx 1 (by decide) (by decide)).2.2.2

/-- C1: adding a favorite is idempotent per (user, target) pair.  For a
resolved, existing user and an existing Pokémon: if a favorite for the pair
already exists, the add leaves the favorites table unchanged and returns a
200 carrying that existing record; if none exists, a single new row is
created with a 201, and an immediately repeated identical add returns 200
carrying the first record unchanged, leaving exactly one matching row.
The region variant behaves symmetrically. -/
theorem claim1_add_idempotent (s : Store) (c : Ctx) (uid pid rid : Nat)
    (hres : get_current_user_id s c = Except.ok uid)
    (huser : findUser s uid ≠ none) :
    (findPokemon s pid ≠ none →
      (∀ f, findFavByPokemon s uid pid = some f →
        add_fav_pokemon s c pid = (⟨200, HBody.favAlready "Ya estaba en favoritos" f⟩, s) ∧
        f ∈ s.favorites ∧ favMatchesPokemon uid pid f)
      ∧ (findFavByPokemon s uid pid = none →
        ∃ g, favMatchesPokemon uid pid g ∧
          add_fav_pokemon s c pid
            = (⟨201, HBody.favCreated g⟩, { s with favorites := s.favorites ++ [g] }) ∧
          add_fav_pokemon { s with favorites := s.favorites ++ [g] } c pid
            = (⟨200, HBody.favAlready "Ya estaba en favoritos" g⟩,
               { s with favorites := s.favorites ++ [g] }) ∧
          List.countP (fun f => f.user_id == uid && f.pokemon_id == some pid)
            (s.favorites ++ [g]) = 1))
  ∧ (findRegion s rid ≠ none →
      (∀ f, findFavByRegion s uid rid = some f →
        add_fav_region s c rid = (⟨200, HBody.favAlready "Ya estaba en favoritos" f⟩, s) ∧
        f ∈ s.favorites ∧ favMatchesRegion uid rid f)
      ∧ (findFavByRegion s uid rid = none →
        ∃ g, favMatchesRegion uid rid g ∧
          add_fav_region s c rid
            = (⟨201, HBody.favCreated g⟩, { s with favorites := s.favorites ++ [g] }) ∧
          add_fav_region { s with favorites := s.favorites ++ [g] } c rid
            = (⟨200, HBody.favAlready "Ya estaba en favoritos" g⟩,
               { s with favorites := s.favorites ++ [g] }) ∧
          List.countP (fun f => f.user_id == uid && f.region_id == some rid)
            (s.favorites ++ [g]) = 1)) := by
  constructor
  · intro hp
    cases hfu : findUser s uid with
    | none => exact absurd hfu huser
    | some u =>
    cases hfp : findPokemon s pid with
    | none => exact absurd hfp hp
    | some p =>
    constructor
    · intro f hfav
      refine ⟨?_, List.mem_of_find?_eq_some hfav, ?_⟩
      · simp [add_fav_pokemon, hres, ensure_user_exists, hfu, hfp, hfav]
      · have hpred := List.find?_some hfav
        simp only [Bool.and_eq_true, beq_iff_eq] at hpred
        exact ⟨hpred.1, hpred.2⟩
    · intro hnone
      refine ⟨⟨nextFavoriteId s, uid, some pid, none⟩, ⟨rfl, rfl⟩, ?_, ?_, ?_⟩
      · simp [add_fav_pokemon, hres, ensure_user_exists, hfu, hfp, hnone]
      · have hres' := (get_current_user_id_set_favorites s
          (s.favorites ++ [⟨nextFavoriteId s, uid, some pid, none⟩]) c).trans hres
        have hfu' := (findUser_set_favorites s
          (s.favorites ++ [⟨nextFavoriteId s, uid, some pid, none⟩]) uid).trans hfu
        have hfp' := (findPokemon_set_favorites s
          (s.favorites ++ [⟨nextFavoriteId s, uid, some pid, none⟩]) pid).trans hfp
        have hfav' : findFavByPokemon
            { s with favorites := s.favorites ++ [⟨nextFavoriteId s, uid, some pid, none⟩] }
            uid pid = some ⟨nextFavoriteId s, uid, some pid, none⟩ := by
          have hbase : findFavByPokemon s uid pid = none := hnone
          unfold findFavByPokemon at hbase ⊢
          rw [List.find?_append, hbase]
          simp
        simp [add_fav_pokemon, hres', ensure_user_exists, hfu', hfp', hfav']
      · rw [List.countP_append]
        have h0 : List.countP (fun f => f.user_id == uid && f.pokemon_id == some pid)
            s.favorites = 0 := by
          refine List.countP_eq_zero.mpr ?_
          intro a ha
          have := List.find?_eq_none.mp hnone a ha
          simpa using this
        simp [h0, List.countP_cons]
  · intro hr
    cases hfu : findUser s uid with
    | none => exact absurd hfu huser
    | some u =>
    cases hfr : findRegion s rid with
    | none => exact absurd hfr hr
    | some r =>
    constructor
    · intro f hfav
      refine ⟨?_, List.mem_of_find?_eq_some hfav, ?_⟩
      · simp [add_fav_region, hres, ensure_user_exists, hfu, hfr, hfav]
      · have hpred := List.find?_some hfav
        simp only [Bool.and_eq_true, beq_iff_eq] at hpred
        exact ⟨hpred.1, hpred.2⟩
    · intro hnone
      refine ⟨⟨nextFavoriteId s, uid, none, some rid⟩, ⟨rfl, rfl⟩, ?_, ?_, ?_⟩
      · simp [add_fav_region, hres, ensure_user_exists, hfu, hfr, hnone]
      · have hres' := (get_current_user_id_set_favorites s
          (s.favorites ++ [⟨nextFavoriteId s, uid, none, some rid⟩]) c).trans hres
        have hfu' := (findUser_set_favorites s
          (s.favorites ++ [⟨nextFavoriteId s, uid, none, some rid⟩]) uid).trans hfu
        have hfr' := (findRegion_set_favorites s
          (s.favorites ++ [⟨nextFavoriteId s, uid, none, some rid⟩]) rid).trans hfr
        have hfav' : findFavByRegion
            { s with favorites := s.favorites ++ [⟨nextFavoriteId s, uid, none, some rid⟩] }
            uid rid = some ⟨nextFavoriteId s, uid, none, some rid⟩ := by
          have hbase : findFavByRegion s uid rid = none := hnone
          unfold findFavByRegion at hbase ⊢
          rw [List.find?_append, hbase]
          simp
        simp [add_fav_region, hres', ensure_user_exists, hfu', hfr', hfav']
      · rw [List.countP_append]
        have h0 : List.countP (fun f => f.user_id == uid && f.region_id == some rid)
            s.favorites = 0 := by
          refine List.countP_eq_zero.mpr ?_
          intro a ha
          have := List.find?_eq_none.mp hnone a ha
          simpa using this
        simp [h0, List.countP_cons]

/-- Witness for C1: in the sample store, re-adding already-favorited
Pokémon 5 returns 200 and changes nothing, and adding the not yet
favorited Pokémon 3 creates a single row whose repeat add is a 200 no-op. -/
theorem claim1_add_idempotent_witness :
    (add_fav_pokemon egStore egCtx 5
      = (⟨200, HBody.favAlready "Ya estaba en favoritos" ⟨1, 1, some 5, none⟩⟩, egStore))
  ∧ ∃ g, favMatchesPokemon 1 3 g ∧
      add_fav_pokemon egStore egCtx 3
        = (⟨201, HBody.favCreated g⟩, { egStore with favorites := egStore.favorites ++ [g] }) ∧
      add_fav_pokemon { egStore with favorites := egStore.favorites ++ [g] } egCtx 3
        = (⟨200, HBody.favAlready "Ya estaba en favoritos" g⟩,
           { egStore with favorites := egStore.favorites ++ [g] }) ∧
      List.countP (fun f => f.user_id == 1 && f.pokemon_id == some 3)
        (egStore.favorites ++ [g]) = 1 :=
  ⟨(((claim1_add_idempotent egStore egCtx 1 5 7 (by decide) (by decide)).1
      (by decide)).1 ⟨1, 1, some 5, none⟩ (by decide)).1,
   ((claim1_add_idempotent egStore egCtx 1 3 7 (by decide) (by decide)).1
      (by decide)).2 (by decide)⟩

lemma find?_eraseP_decomp {α : Type*} {p : α → Bool} {l : List α} {a : α}
    (h : l.find? p = some a) :
    ∃ l₁ l₂, l = l₁ ++ a :: l₂ ∧ (∀ b ∈ l₁, p b = false) ∧ l.eraseP p = l₁ ++ l₂ := by
  induction l with
  | nil => simp at h
  | cons x xs ih =>
    by_cases hx : p x
    · rw [List.find?_cons_of_pos _ hx] at h
      have hax : x = a := Option.some_inj.mp h
      subst hax
      exact ⟨[], xs, rfl, by simp, List.eraseP_cons_of_pos hx⟩
    · rw [List.find?_cons_of_neg _ hx] at h
      obtain ⟨l₁, l₂, heq, hall, herase⟩ := ih h
      refine ⟨x :: l₁, l₂, by rw [heq]; rfl, ?_, ?_⟩
      · intro b hb
        rcases List.mem_cons.mp hb with hb | hb
        · subst hb
          exact Bool.not_eq_true _ ▸ (by simpa using hx)
        · exact hall b hb
      · rw [List.eraseP_cons_of_neg hx, herase]
        simp

/-- C3: for a resolved, existing user, `DELETE /favorite/pokemon/{p}` fails
with the 404 "not in favorites" error exactly when no favorite row for the
(user, pokemon) pair exists, leaving the favorites table completely
unchanged in that case; otherwise it removes exactly the first matching
row and returns a 200 confirmation.  The region variant behaves
symmetrically. -/
theorem claim3_delete (s : Store) (c : Ctx) (uid pid rid : Nat)
    (hres : get_current_user_id s c = Except.ok uid)
    (huser : findUser s uid ≠ none) :
    (((delete_fav_pokemon s c pid).1.status = 404 ↔ findFavByPokemon s uid pid = none)
      ∧ (findFavByPokemon s uid pid = none →
          delete_fav_pokemon s c pid
            = (⟨404, HBody.err "Ese Pokémon no está en tus favoritos."⟩, s))
      ∧ (∀ f, findFavByPokemon s uid pid = some f →
          ∃ l₁ l₂, s.favorites = l₁ ++ f :: l₂ ∧
            (∀ b ∈ l₁, ¬ favMatchesPokemon uid pid b) ∧
            favMatchesPokemon uid pid f ∧
            delete_fav_pokemon s c pid
              = (⟨200, HBody.message "Favorito (Pokémon) eliminado"⟩,
                 { s with favorites := l₁ ++ l₂ })))
  ∧ (((delete_fav_region s c rid).1.status = 404 ↔ findFavByRegion s uid rid = none)
      ∧ (findFavByRegion s uid rid = none →
          delete_fav_region s c rid
            = (⟨404, HBody.err "Esa Región no está en tus favoritos."⟩, s))
      ∧ (∀ f, findFavByRegion s uid rid = some f →
          ∃ l₁ l₂, s.favorites = l₁ ++ f :: l₂ ∧
            (∀ b ∈ l₁, ¬ favMatchesRegion uid rid b) ∧
            favMatchesRegion uid rid f ∧
            delete_fav_region s c rid
              = (⟨200, HBody.message "Favorito (Región) eliminado"⟩,
                 { s with favorites := l₁ ++ l₂ }))) := by
  cases hfu : findUser s uid with
  | none => exact absurd hfu huser
  | some u =>
  constructor
  · refine ⟨?_, ?_, ?_⟩
    · cases hfav : findFavByPokemon s uid pid with
      | none =>
        simp [delete_fav_pokemon, hres, ensure_user_exists, hfu, hfav]
      | some f =>
        simp [delete_fav_pokemon, hres, ensure_user_exists, hfu, hfav]
    · intro hfav
      simp [delete_fav_pokemon, hres, ensure_user_exists, hfu, hfav]
    · intro f hfav
      obtain ⟨l₁, l₂, heq, hall, herase⟩ := find?_eraseP_decomp hfav
      have hpred := List.find?_some hfav
      simp only [Bool.and_eq_true, beq_iff_eq] at hpred
      refine ⟨l₁, l₂, heq, ?_, ⟨hpred.1, hpred.2⟩, ?_⟩
      · intro b hb hmatch
        have : (b.user_id == uid && b.pokemon_id == some pid) = true := by
          simp [hmatch.1, hmatch.2]
        rw [hall b hb] at this
        exact Bool.false_ne_true this
      · have hdel : delete_fav_pokemon s c pid = (⟨200, HBody.message "Favorito (Pokémon) eliminado"⟩, { s with favorites := List.eraseP (fun f => f.user_id == uid && f.pokemon_id == some pid) s.favorites }) := by
          simp [delete_fav_pokemon, hres, ensure_user_exists, hfu, hfav]
        rw [hdel, herase]
  · refine ⟨?_, ?_, ?_⟩
    · cases hfav : findFavByRegion s uid rid with
      | none =>
        simp [delete_fav_region, hres, ensure_user_exists, hfu, hfav]
      | some f =>
        simp [delete_fav_region, hres, ensure_user_exists, hfu, hfav]
    · intro hfav
      simp [delete_fav_region, hres, ensure_user_exists, hfu, hfav]
    · intro f hfav
      obtain ⟨l₁, l₂, heq, hall, herase⟩ := find?_eraseP_decomp hfav
      have hpred := List.find?_some hfav
      simp only [Bool.and_eq_true, beq_iff_eq] at hpred
      refine ⟨l₁, l₂, heq, ?_, ⟨hpred.1, hpred.2⟩, ?_⟩
      · intro b hb hmatch
        have : (b.user_id == uid && b.region_id == some rid) = true := by
          simp [hmatch.1, hmatch.2]
        rw [hall b hb] at this
        exact Bool.false_ne_true this
      · have hdel : delete_fav_region s c rid = (⟨200, HBody.message "Favorito (Región) eliminado"⟩, { s with favorites := List.eraseP (fun f => f.user_id == uid && f.region_id == some rid) s.favorites }) := by
          simp [delete_fav_region, hres, ensure_user_exists, hfu, hfav]
        rw [hdel, herase]

/-- Witness for C3: in the sample store, deleting the never-added Pokémon 3
favorite is a 404 no-op, while deleting the existing Pokémon 5 favorite
removes exactly that row with a 200 confirmation. -/
theorem claim3_delete_witness :
    delete_fav_pokemon egStore egCtx 3
      = (⟨404, HBody.err "Ese Pokémon no está en tus favoritos."⟩, egStore)
  ∧ ∃ l₁ l₂, egStore.favorites = l₁ ++ (⟨1, 1, some 5, none⟩ : Favorite) :: l₂ ∧
      (∀ b ∈ l₁, ¬ favMatchesPokemon 1 5 b) ∧
      favMatchesPokemon 1 5 ⟨1, 1, some 5, none⟩ ∧
      delete_fav_pokemon egStore egCtx 5
        = (⟨200, HBody.message "Favorito (Pokémon) eliminado"⟩,
           { egStore with favorites := l₁ ++ l₂ }) :=
  ⟨((claim3_delete egStore egCtx 1 3 7 (by decide) (by decide)).1.2.1 (by decide)),
   ((claim3_delete egStore egCtx 1 5 7 (by decide) (by decide)).1.2.2
      ⟨1, 1, some 5, none⟩ (by decide))⟩

/-- C6: when the resolved user exists, the target Pokémon exists, and no
favorite for the pair exists yet, the add creates a new favorite whose
region reference is null and returns it with a 201; if the Pokémon or the
user does not exist the request fails with a 404 error and no row is
created. -/
theorem claim6_create_with_null_region (s : Store) (c : Ctx) (uid pid : Nat)
    (hres : get_current_user_id s c = Except.ok uid) :
    (findUser s uid = none →
      add_fav_pokemon s c pid
        = (⟨404, HBody.err ("User " ++ toString uid ++ " no existe.")⟩, s))
  ∧ (findUser s uid ≠ none → findPokemon s pid = none →
      add_fav_pokemon s c pid = (⟨404, HBody.err "Pokémon no encontrado."⟩, s))
  ∧ (findUser s uid ≠ none → findPokemon s pid ≠ none →
      findFavByPokemon s uid pid = none →
      ∃ g : Favorite, g.user_id = uid ∧ g.pokemon_id = some pid ∧ g.region_id = none ∧
        add_fav_pokemon s c pid
          = (⟨201, HBody.favCreated g⟩, { s with favorites := s.favorites ++ [g] })) := by
  refine ⟨?_, ?_, ?_⟩
  · intro hfu
    simp [add_fav_pokemon, hres, ensure_user_exists, hfu, errResp]
  · intro hfu hfp
    cases hfu' : findUser s uid with
    | none => exact absurd hfu' hfu
    | some u => simp [add_fav_pokemon, hres, ensure_user_exists, hfu', hfp]
  · intro hfu hfp hfav
    cases hfu' : findUser s uid with
    | none => exact absurd hfu' hfu
    | some u =>
    cases hfp' : findPokemon s pid with
    | none => exact absurd hfp' hfp
    | some p =>
      refine ⟨⟨nextFavoriteId s, uid, some pid, none⟩, rfl, rfl, rfl, ?_⟩
      simp [add_fav_pokemon, hres, ensure_user_exists, hfu', hfp', hfav]

/-- Witness for C6, the spec scenario: user 1 resolved, Pokémon 3 present,
no prior favorite — the POST returns 201 with body fields user_id 1,
pokemon_id 3, region_id null. -/
theorem claim6_create_with_null_region_witness :
    ∃ g : Favorite, g.user_id = 1 ∧ g.pokemon_id = some 3 ∧ g.region_id = none ∧
      add_fav_pokemon egStore egCtx 3
        = (⟨201, HBody.favCreated g⟩, { egStore with favorites := egStore.favorites ++ [g] }) :=
  (claim6_create_with_null_region egStore egCtx 1 3 (by decide)).2.2
    (by decide) (by decide) (by decide)

lemma add_fav_pokemon_favorites (s : Store) (c : Ctx) (pid : Nat) :
    (add_fav_pokemon s c pid).2.favorites = s.favorites ∨
    ∃ uid, (add_fav_pokemon s c pid).2.favorites
      = s.favorites ++ [⟨nextFavoriteId s, uid, some pid, none⟩] := by
  cases hres : get_current_user_id s c with
  | error e => exact Or.inl (by simp [add_fav_pokemon, hres])
  | ok uid =>
    cases hue : ensure_user_exists s uid with
    | error e => exact Or.inl (by simp [add_fav_pokemon, hres, hue])
    | ok u =>
      cases hfp : findPokemon s pid with
      | none => exact Or.inl (by simp [add_fav_pokemon, hres, hue, hfp])
      | some p =>
        cases hfav : findFavByPokemon s uid pid with
        | some ex => exact Or.inl (by simp [add_fav_pokemon, hres, hue, hfp, hfav])
        | none => exact Or.inr ⟨uid, by simp [add_fav_pokemon, hres, hue, hfp, hfav]⟩

lemma add_fav_region_favorites (s : Store) (c : Ctx) (rid : Nat) :
    (add_fav_region s c rid).2.favorites = s.favorites ∨
    ∃ uid, (add_fav_region s c rid).2.favorites
      = s.favorites ++ [⟨nextFavoriteId s, uid, none, some rid⟩] := by
  cases hres : get_current_user_id s c with
  | error e => exact Or.inl (by simp [add_fav_region, hres])
  | ok uid =>
    cases hue : ensure_user_exists s uid with
    | error e => exact Or.inl (by simp [add_fav_region, hres, hue])
    | ok u =>
      cases hfr : findRegion s rid with
      | none => exact Or.inl (by simp [add_fav_region, hres, hue, hfr])
      | some r =>
        cases hfav : findFavByRegion s uid rid with
        | some ex => exact Or.inl (by simp [add_fav_region, hres, hue, hfr, hfav])
        | none => exact Or.inr ⟨uid, by simp [add_fav_region, hres, hue, hfr, hfav]⟩

lemma delete_fav_pokemon_favorites (s : Store) (c : Ctx) (pid : Nat) :
    List.Sublist (delete_fav_pokemon s c pid).2.favorites s.favorites := by
  cases hres : get_current_user_id s c with
  | error e =>
    rw [show (delete_fav_pokemon s c pid).2.favorites = s.favorites from by simp [delete_fav_pokemon, hres]]
  | ok uid =>
    cases hue : ensure_user_exists s uid with
    | error e =>
      rw [show (delete_fav_pokemon s c pid).2.favorites = s.favorites from by simp [delete_fav_pokemon, hres, hue]]
    | ok u =>
      cases hfav : findFavByPokemon s uid pid with
      | none =>
        rw [show (delete_fav_pokemon s c pid).2.favorites = s.favorites from by simp [delete_fav_pokemon, hres, hue, hfav]]
      | some f =>
        rw [show (delete_fav_pokemon s c pid).2.favorites = List.eraseP (fun f => f.user_id == uid && f.pokemon_id == some pid) s.favorites from by simp [delete_fav_pokemon, hres, hue, hfav]]
        exact List.eraseP_sublist _

lemma delete_fav_region_favorites (s : Store) (c : Ctx) (rid : Nat) :
    List.Sublist (delete_fav_region s c rid).2.favorites s.favorites := by
  cases hres : get_current_user_id s c with
  | error e =>
    rw [show (delete_fav_region s c rid).2.favorites = s.favorites from by simp [delete_fav_region, hres]]
  | ok uid =>
    cases hue : ensure_user_exists s uid with
    | error e =>
      rw [show (delete_fav_region s c rid).2.favorites = s.favorites from by simp [delete_fav_region, hres, hue]]
    | ok u =>
      cases hfav : findFavByRegion s uid rid with
      | none =>
        rw [show (delete_fav_region s c rid).2.favorites = s.favorites from by simp [delete_fav_region, hres, hue, hfav]]
      | some f =>
        rw [show (delete_fav_region s c rid).2.favorites = List.eraseP (fun f => f.user_id == uid && f.region_id == some rid) s.favorites from by simp [delete_fav_region, hres, hue, hfav]]
        exact List.eraseP_sublist _

lemma applyOp_preserves_targetXor (s : Store) (op : Op) (h : TargetOK s) :
    TargetOK (applyOp s op) := by
  cases op with
  | addPokemon c pid =>
    intro f hf
    rcases add_fav_pokemon_favorites s c pid with hfav | ⟨uid, hfav⟩
    · rw [show (applyOp s (Op.addPokemon c pid)).favorites
          = (add_fav_pokemon s c pid).2.favorites from rfl, hfav] at hf
      exact h f hf
    · rw [show (applyOp s (Op.addPokemon c pid)).favorites
          = (add_fav_pokemon s c pid).2.favorites from rfl, hfav] at hf
      rcases List.mem_append.mp hf with hf | hf
      · exact h f hf
      · have : f = ⟨nextFavoriteId s, uid, some pid, none⟩ := by simpa using hf
        subst this
        exact Or.inl ⟨by simp, rfl⟩
  | addRegion c rid =>
    intro f hf
    rcases add_fav_region_favorites s c rid with hfav | ⟨uid, hfav⟩
    · rw [show (applyOp s (Op.addRegion c rid)).favorites
          = (add_fav_region s c rid).2.favorites from rfl, hfav] at hf
      exact h f hf
    · rw [show (applyOp s (Op.addRegion c rid)).favorites
          = (add_fav_region s c rid).2.favorites from rfl, hfav] at hf
      rcases List.mem_append.mp hf with hf | hf
      · exact h f hf
      · have : f = ⟨nextFavoriteId s, uid, none, some rid⟩ := by simpa using hf
        subst this
        exact Or.inr ⟨rfl, by simp⟩
  | delPokemon c pid =>
    intro f hf
    exact h f ((delete_fav_pokemon_favorites s c pid).subset hf)
  | delRegion c rid =>
    intro f hf
    exact h f ((delete_fav_region_favorites s c rid).subset hf)

/-- C2: target mutual exclusivity is an invariant: starting from any store
in which every favorite row has exactly one non-null target reference,
after any finite sequence of add-Pokémon, add-Region, delete-Pokémon and
delete-Region favorite operations, every favorite row still has exactly
one non-null target (in particular no row ever has both set). -/
theorem claim2_target_exclusive_invariant (s : Store) (ops : List Op) (h : TargetOK s) :
    TargetOK (runOps s ops) := by
  induction ops generalizing s with
  | nil => exact h
  | cons op rest ih => exact ih _ (applyOp_preserves_targetXor s op h)

/-- Witness for C2: the sample store satisfies the invariant, and still
does after a concrete mixed sequence of adds and deletes. -/
theorem claim2_target_exclusive_invariant_witness :
    TargetOK egStore ∧
    TargetOK (runOps egStore
      [Op.addPokemon egCtx 3, Op.delRegion egCtx 7, Op.addRegion egCtx 7,
       Op.addPokemon egCtx 3, Op.delPokemon egCtx 5]) :=
  ⟨by decide,
   claim2_target_exclusive_invariant egStore
     [Op.addPokemon egCtx 3, Op.delRegion egCtx 7, Op.addRegion egCtx 7,
      Op.addPokemon egCtx 3, Op.delPokemon egCtx 5] (by decide)⟩

lemma list_my_favorites_items (s : Store) (c : Ctx) (uid : Nat) (u : User)
    (hres : get_current_user_id s c = Except.ok uid)
    (hfu : findUser s uid = some u) :
    (list_my_favorites s c).1.body
      = HBody.favList ((userFavorites s uid).map (enrichFav s)) := by
  simp [list_my_favorites, hres, ensure_user_exists, hfu]

/-- C5 fails on the code as stated: a favorite row whose `pokemon_id` is 0
refers to an existing Pokémon with id 0, yet Python's `if f.pokemon_id:`
is falsy on 0, so the `"pokemon"` key is omitted from the item instead of
carrying that Pokémon's serialization. -/
theorem claim5_counterexample :
    ¬ (∀ (s : Store) (c : Ctx) (items : List FavItem) (it : FavItem) (k : Nat),
        (list_my_favorites s c).1.body = HBody.favList items → it ∈ items →
        it.favorite.pokemon_id = some k → (∃ p ∈ s.pokemons, p.id = k) →
        ∃ p, p ∈ s.pokemons ∧ p.id = k ∧ it.pokemon = some (some p)) := by
  intro hclaim
  obtain ⟨p, hp, hpid, hpok⟩ :=
    hclaim ⟨[⟨1⟩], [⟨0, "missingno"⟩], [], [⟨1, 1, some 0, none⟩]⟩ ⟨some "1", none⟩
      [⟨⟨1, 1, some 0, none⟩, none, none⟩] ⟨⟨1, 1, some 0, none⟩, none, none⟩ 0
      (by decide) (by decide) rfl ⟨⟨0, "missingno"⟩, by decide, rfl⟩
  simp at hpok

/-- C5 (amended): for every favorite row returned by `GET /users/favorites`
whose stored target id is a non-zero `k`, if Pokémon `k` exists in the
store the item's `pokemon` field is the full serialization of Pokémon `k`,
and if the referenced Pokémon row was deleted the field is present and
explicitly null; symmetrically for regions.  (The target id 0 is excluded:
Python's truthiness check skips enrichment for it.) -/
theorem claim5_enrichment_amended (s : Store) (c : Ctx) (uid : Nat)
    (hres : get_current_user_id s c = Except.ok uid)
    (huser : findUser s uid ≠ none) :
    ∀ items, (list_my_favorites s c).1.body = HBody.favList items →
      ∀ it ∈ items,
        (∀ k, k ≠ 0 → it.favorite.pokemon_id = some k →
          ((∃ p, p ∈ s.pokemons ∧ p.id = k ∧ it.pokemon = some (some p)) ∨
           ((¬ ∃ p ∈ s.pokemons, p.id = k) ∧ it.pokemon = some none)))
        ∧ (∀ k, k ≠ 0 → it.favorite.region_id = some k →
          ((∃ r, r ∈ s.regions ∧ r.id = k ∧ it.region = some (some r)) ∨
           ((¬ ∃ r ∈ s.regions, r.id = k) ∧ it.region = some none))) := by
  cases hfu : findUser s uid with
  | none => exact absurd hfu huser
  | some u =>
  intro items hitems it hit
  rw [list_my_favorites_items s c uid u hres hfu] at hitems
  have hitems' : items = (userFavorites s uid).map (enrichFav s) :=
    (HBody.favList.injEq _ _ ▸ hitems.symm)
  subst hitems'
  obtain ⟨f, hf, hef⟩ := List.mem_map.mp hit
  subst hef
  constructor
  · intro k hk hpk
    have hfav : (enrichFav s f).favorite = f := rfl
    rw [hfav] at hpk
    have hpok : (enrichFav s f).pokemon = some (findPokemon s k) := by
      simp [enrichFav, enrichPokemon, hpk, hk]
    cases hfind : findPokemon s k with
    | some p =>
      refine Or.inl ⟨p, List.mem_of_find?_eq_some hfind, ?_, ?_⟩
      · simpa using List.find?_some hfind
      · rw [hpok, hfind]
    | none =>
      refine Or.inr ⟨?_, by rw [hpok, hfind]⟩
      rintro ⟨p, hp, hpid⟩
      have := List.find?_eq_none.mp hfind p hp
      simp [hpid] at this
  · intro k hk hrk
    have hfav : (enrichFav s f).favorite = f := rfl
    rw [hfav] at hrk
    have hreg : (enrichFav s f).region = some (findRegion s k) := by
      simp [enrichFav, enrichRegion, hrk, hk]
    cases hfind : findRegion s k with
    | some r =>
      refine Or.inl ⟨r, List.mem_of_find?_eq_some hfind, ?_, ?_⟩
      · simpa using List.find?_some hfind
      · rw [hreg, hfind]
    | none =>
      refine Or.inr ⟨?_, by rw [hreg, hfind]⟩
      rintro ⟨r, hr, hrid⟩
      have := List.find?_eq_none.mp hfind r hr
      simp [hrid] at this

/-- Witness for the amended C5: in the sample store user 1's Pokémon-5
favorite is enriched with the full Pokémon 5 object. -/
theorem claim5_enrichment_amended_witness :
    ∃ p, p ∈ egStore.pokemons ∧ p.id = 5 ∧
      (⟨⟨1, 1, some 5, none⟩, some (some ⟨5, "pikachu"⟩), none⟩ : FavItem).pokemon
        = some (some p) := by
  have h := (claim5_enrichment_amended egStore egCtx 1 (by decide) (by decide)
    ((userFavorites egStore 1).map (enrichFav egStore)) (by decide)
    ⟨⟨1, 1, some 5, none⟩, some (some ⟨5, "pikachu"⟩), none⟩ (by decide)).1 5
    (by decide) rfl
  rcases h with h | h
  · exact h
  · exact absurd h.2 (by decide)

/-- C10: in the favorites listing each item carries a `pokemon` key exactly
when the favorite's `pokemon_id` is non-null and non-zero, and a `region`
key exactly when its `region_id` is non-null and non-zero; for a null or
zero target id the corresponding enrichment key is absent from the item
entirely. -/
theorem claim10_truthiness_keys (s : Store) (c : Ctx) (uid : Nat)
    (hres : get_current_user_id s c = Except.ok uid)
    (huser : findUser s uid ≠ none) :
    ∀ items, (list_my_favorites s c).1.body = HBody.favList items →
      ∀ it ∈ items,
        ((it.pokemon ≠ none) ↔ ∃ k, it.favorite.pokemon_id = some k ∧ k ≠ 0)
        ∧ ((it.region ≠ none) ↔ ∃ k, it.favorite.region_id = some k ∧ k ≠ 0) := by
  cases hfu : findUser s uid with
  | none => exact absurd hfu huser
  | some u =>
  intro items hitems it hit
  rw [list_my_favorites_items s c uid u hres hfu] at hitems
  have hitems' : items = (userFavorites s uid).map (enrichFav s) :=
    (HBody.favList.injEq _ _ ▸ hitems.symm)
  subst hitems'
  obtain ⟨f, hf, hef⟩ := List.mem_map.mp hit
  subst hef
  constructor
  · cases hpk : f.pokemon_id with
    | none =>
      simp [enrichFav, enrichPokemon, hpk]
    | some k =>
      by_cases hk : k = 0
      · subst hk
        simp [enrichFav, enrichPokemon, hpk]
      · simp [enrichFav, enrichPokemon, hpk, hk]
  · cases hrk : f.region_id with
    | none =>
      simp [enrichFav, enrichRegion, hrk]
    | some k =>
      by_cases hk : k = 0
      · subst hk
        simp [enrichFav, enrichRegion, hrk]
      · simp [enrichFav, enrichRegion, hrk, hk]

/-- Witness for C10: in the sample store the Region-7 favorite's item has a
`region` key and no `pokemon` key. -/
theorem claim10_truthiness_keys_witness :
    ((⟨⟨2, 1, none, some 7⟩, none, some (some ⟨7, "kanto"⟩)⟩ : FavItem).pokemon ≠ none
      ↔ ∃ k, (⟨2, 1, none, some 7⟩ : Favorite).pokemon_id = some k ∧ k ≠ 0) :=
  ((claim10_truthiness_keys egStore egCtx 1 (by decide) (by decide)
    ((userFavorites egStore 1).map (enrichFav egStore)) (by decide)
    ⟨⟨2, 1, none, some 7⟩, none, some (some ⟨7, "kanto"⟩)⟩ (by decide)).1)

end PokeApi
